import Mathlib

/-!
Verification development for the warranty-tracker Soroban client
(src/frontend/src/utils/soroban.ts and the classified variant in
src/unnamed/part_001).  The pipeline in `invokeContract` is embedded as a
pure function over an explicit environment (`InvokeEnv`) that records the
outcome of every external call (Horizon account load, simulateTransaction,
prepareTransaction, assembleTransaction, the Freighter signer, the two
envelope parsers, sendTransaction, and base64 ScVal decoding).  Thrown
JavaScript values are modelled by `JsErr`; the distinction between an
`Error` instance and a raw non-Error thrown value is kept because the
source branches on `instanceof Error`.

The embedding of `invokeContract` follows the variant in
src/unnamed/part_001 lines 38-331, which contains the simulation-error
classifier; the variant in src/frontend/src/utils/soroban.ts differs only
in console logging and in an extra "Original error" suffix on one message,
none of which the claims depend on.
-/

set_option maxRecDepth 100000

namespace WarrantyTracker

/-- ScVal wire values, restricted to the constructors this client builds
and consumes (scvBool, scvU32, scvU64, scvString and addresses). -/
inductive ScVal where
  | scvBool (b : Bool)
  | scvU32 (n : Nat)
  | scvU64 (n : Nat)
  | scvString (s : String)
  | scvAddress (s : String)
deriving DecidableEq, Repr

/-- A thrown JavaScript value: either an `Error` instance carrying a
message, or a raw non-Error value (modelled by its string conversion). -/
inductive JsErr where
  | error (msg : String)
  | raw (str : String)
deriving DecidableEq, Repr

/-- charsStartsWith cs ps: the character list ps is an initial segment
of cs. -/
def charsStartsWith : List Char → List Char → Bool
  | _, [] => true
  | [], _ :: _ => false
  | c :: cs, p :: ps => c == p && charsStartsWith cs ps

/-- charsIncludes cs ps: ps occurs contiguously somewhere in cs. -/
def charsIncludes : List Char → List Char → Bool
  | [], p => p.isEmpty
  | c :: cs, p => charsStartsWith (c :: cs) p || charsIncludes cs p

/-- Substring test, mirroring JavaScript `String.prototype.includes`. -/
def includes (s pat : String) : Bool :=
  charsIncludes s.data pat.data

/-- jsStartsWith mirrors JavaScript `String.prototype.startsWith`. -/
def jsStartsWith (s pat : String) : Bool :=
  charsStartsWith s.data pat.data

/-- jsErrMessage e mirrors
`e instanceof Error ? e.message : String(e)` from the source. -/
def jsErrMessage : JsErr → String
  | .error m => m
  | .raw s => s

/-- parseDecimal cs acc: fold a run of decimal digits into a number,
failing on any non-digit character. -/
def parseDecimal : List Char → Nat → Option Nat
  | [], acc => some acc
  | c :: rest, acc =>
    let d := c.toNat
    if 48 ≤ d && d ≤ 57 then parseDecimal rest (acc * 10 + (d - 48)) else none

/-- strToNat: decimal parse of a whole string, failing when empty or
when any character is not a digit. -/
def strToNat (s : String) : Option Nat :=
  match s.data with
  | [] => none
  | cs => parseDecimal cs 0

/-- Uint64.fromString: parses a decimal string, throwing (here: `none`)
for non-numeric input or values outside the unsigned 64-bit range. -/
def uint64FromString (s : String) : Option Nat :=
  match strToNat s with
  | some n => if n < 18446744073709551616 then some n else none
  | none => none

/-- A simulation error event, as inspected by the classifier
(`e.topics?.includes("error")`, `JSON.stringify(e.data || e)`).  The
`dataJson` field is the string that JSON.stringify would produce for
`e.data || e`. -/
structure SimEvent where
  topics : List String
  dataJson : String
deriving DecidableEq, Repr

/-- The raw error payload of a failed simulation: a string, or an object
with its JSON.stringify form and the optional `events` / `eventLog`
arrays the classifier looks for.  (A key that is present with a null
value is modelled the same as an absent key.) -/
inductive ErrPayload where
  | str (s : String)
  | obj (json : String) (events : Option (List SimEvent)) (eventLog : Option (List SimEvent))
deriving DecidableEq, Repr

/-- errPayloadStr mirrors
`typeof error === "string" ? error : JSON.stringify(error)`. -/
def errPayloadStr : ErrPayload → String
  | .str s => s
  | .obj j _ _ => j

/-- errPayloadJson mirrors `JSON.stringify(error)`: a string value is
quoted, an object yields its stringified form.  (Escaping of special
characters inside the string is elided; no input used here needs it.) -/
def errPayloadJson : ErrPayload → String
  | .str s => "\"" ++ s ++ "\""
  | .obj j _ _ => j

/-- errPayloadTemplate mirrors template-literal interpolation
of the payload: a string interpolates as itself, a plain object as
"[object Object]". -/
def errPayloadTemplate : ErrPayload → String
  | .str s => s
  | .obj _ _ _ => "[object Object]"

/-- thrownToPayload models `simResponse = { error: simErr }` when
simulateTransaction itself throws: a thrown string is a string payload,
and a thrown Error object JSON-stringifies to "\x7b\x7d" with no
events key. -/
def thrownToPayload : JsErr → ErrPayload
  | .error _ => .obj "\x7b\x7d" none none
  | .raw s => .str s

/-- The encoding-limitation message thrown for `update_status` when the
simulation payload contains the UnreachableCodeReached marker
(src/unnamed/part_001 lines 101-106). -/
def updateStatusEncodingMsg : String :=
  "Failed to update warranty status: The contract simulation is failing due to an enum parameter encoding issue. " ++
  "The contract code allows status changes, but Soroban's simulation cannot properly handle the enum parameter. " ++
  "This is a known limitation with contracttype enums during simulation. " ++
  "Please use the \"Revoke Warranty\" button for Revoked status, which uses a different method that works."

/-- The refined guidance message for a `revoke_warranty` contract panic
(src/unnamed/part_001 line 118). -/
def revokeGuidanceMsg : String :=
  "Warranty not found or access denied. The warranty may not exist, or you may not be the owner. Please verify: 1) The warranty ID is correct, 2) You are the owner of this warranty, 3) The warranty exists in the contract."

/-- The suffix of the generic contract-panic message
(src/unnamed/part_001 line 120). -/
def panicSuffix : String :=
  ". This usually means the contract panicked due to invalid input or state."

/-- pickEvents mirrors
`("events" in error ? error.events : error.eventLog) || []`
guarded by `"events" in error || "eventLog" in error`. -/
def pickEvents : Option (List SimEvent) → Option (List SimEvent) → Option (List SimEvent)
  | some l, _ => some l
  | none, some l => some l
  | none, none => none

/-- classifySimError embeds the simulation-failure classifier of
src/unnamed/part_001 lines 93-140: the update_status encoding-limitation
branch, the UnreachableCodeReached contract-panic branch with its
revoke_warranty refinement, and the event-log inspection fallback. -/
def classifySimError (method : String) (error : ErrPayload) : String :=
  let errorStr := errPayloadStr error
  if method == "update_status" && includes errorStr "UnreachableCodeReached" then
    updateStatusEncodingMsg
  else
    let errorMessage := "Transaction simulation failed: " ++ errPayloadJson error
    if includes errorStr "UnreachableCodeReached" then
      if method == "revoke_warranty" then
        revokeGuidanceMsg
      else
        "Contract execution failed: " ++ errPayloadTemplate error ++ panicSuffix
    else
      match error with
      | .str _ => errorMessage
      | .obj _ evs evl =>
        match pickEvents evs evl with
        | none => errorMessage
        | some events =>
          match events.find? (fun e => e.topics.contains "error" || e.topics.contains "Error") with
          | some ev => "Contract error: " ++ ev.dataJson
          | none => errorMessage

/-- The `scValToNative` output of a simulation return value, by its
JavaScript typeof class: string, number, bigint, or anything else. -/
inductive NativeVal where
  | nstr (s : String)
  | nnum (n : Int)
  | nbig (n : Int)
  | nother
deriving DecidableEq, Repr

/-- The `result.retval` field of a write-invocation simulation response:
an xdr.ScVal instance, a base64 string, an object (whose scValToNative
conversion either yields a native value or throws, `none`), or a value
of any other typeof. -/
inductive SimRetval where
  | scval (v : ScVal)
  | str (s : String)
  | obj (conv : Option NativeVal)
  | other
deriving DecidableEq, Repr

/-- The truthy `result` member of a simulation response. -/
structure SimResult where
  retval : Option SimRetval
deriving DecidableEq, Repr

/-- A simulateTransaction response: an `error` member, a truthy
`errorResult`, and a truthy `result`; `none` models an absent or falsy
member. -/
structure SimResponse where
  error : Option ErrPayload
  errorResult : Option ErrPayload
  result : Option SimResult
deriving DecidableEq, Repr

/-- simError? mirrors the guard
`"error" in simResponse || simResponse.errorResult` together with
`"error" in simResponse ? simResponse.error : simResponse.errorResult`. -/
def simError? (r : SimResponse) : Option ErrPayload :=
  match r.error with
  | some e => some e
  | none => r.errorResult

/-- The Freighter signTransaction result: an optional error string and
the optional signed XDR blob. -/
structure SignResult where
  error : Option String
  signedTxXdr : Option String
deriving DecidableEq, Repr

/-- The sendTransaction response; a present `errorResult` is fatal. -/
structure SendResponse where
  errorResult : Option ErrPayload
deriving DecidableEq, Repr

/-- A transaction object, reduced to what the reconciler touches: the
operation/authorization payload bytes, and the mutable ordered signature
list.  (JavaScript transaction objects always expose a `signatures`
array, so the source guard for a missing array is unreachable here.) -/
structure Tx where
  payload : String
  signatures : List String
deriving DecidableEq, Repr

/-- The signer output parsed as an xdr.TransactionEnvelope: a v0 or v1
shape carrying a signature list, or an unsupported discriminant. -/
inductive Envelope where
  | v0 (signatures : List String)
  | v1 (signatures : List String)
  | other
deriving DecidableEq, Repr

/-- extractSignature mirrors src/unnamed/part_001 lines 213-226: take
the first signature of a v1 or v0 envelope and nothing from any other
discriminant. -/
def extractSignature : Envelope → Option String
  | .v1 sigs => sigs.head?
  | .v0 sigs => sigs.head?
  | .other => none

/-- reconcileFallback embeds the manual reconciliation path of
src/unnamed/part_001 lines 206-247: re-parse the signed envelope (a
parse failure is fatal and classified), extract its first signature and,
when one exists, append it to the already-assembled transaction; when no
signature is extractable, the source only warns and continues with the
assembled transaction unchanged. -/
def reconcileFallback (assembledTx : Tx) (envParse : Except JsErr Envelope) : Except JsErr Tx :=
  match envParse with
  | .error sigError =>
    .error (.error ("Failed to extract signature from Soroban envelope: " ++ jsErrMessage sigError))
  | .ok envl =>
    match extractSignature envl with
    | some sig => .ok (Tx.mk assembledTx.payload (assembledTx.signatures ++ [sig]))
    | none => .ok assembledTx

/-- The environment of one `invokeContract` run: the outcome of every
external call it makes, in pipeline order. -/
structure InvokeEnv where
  loadAccount : Except JsErr Unit
  simulateTransaction : Except JsErr SimResponse
  prepareTransaction : Except JsErr Unit
  assemble : Except JsErr Tx
  sign : Except JsErr SignResult
  standardParse : Except JsErr Tx
  envelopeParse : Except JsErr Envelope
  send : Except JsErr SendResponse
  decodeScVal : String → Option ScVal

/-- simResponseOf mirrors the try/catch around simulateTransaction in
src/unnamed/part_001 lines 80-85: a thrown value becomes an
error-bearing response object. -/
def simResponseOf (env : InvokeEnv) : SimResponse :=
  match env.simulateTransaction with
  | .ok r => r
  | .error e => SimResponse.mk (some (thrownToPayload e)) none none

/-- extractFromRetval is the try-block of the result-extraction step
(src/unnamed/part_001 lines 278-314); `none` means the block threw. -/
def extractFromRetval (decode : String → Option ScVal) : SimRetval → Option ScVal
  | .scval v => some v
  | .str s => decode s
  | .obj conv =>
    match conv with
    | none => none
    | some native =>
      match native with
      | .nstr s => (uint64FromString s).map ScVal.scvU64
      | .nnum n => (uint64FromString (toString n)).map ScVal.scvU64
      | .nbig n => (uint64FromString (toString n)).map ScVal.scvU64
      | .nother => none
  | .other => none

/-- extractionResult is the post-submission result extraction
(src/unnamed/part_001 lines 267-324): a missing retval or a failed
extraction degrades to the scvBool(true) success sentinel. -/
def extractionResult (decode : String → Option ScVal) (retvalOpt : Option SimRetval) : ScVal :=
  match retvalOpt with
  | none => ScVal.scvBool true
  | some rv => (extractFromRetval decode rv).getD (ScVal.scvBool true)

/-- finalSignedTx runs the pipeline of src/unnamed/part_001 lines 63-255
up to the transaction handed to sendTransaction: account load,
simulation with classification, preparation, validation, assembly,
signing, and the two-branch envelope parse with manual reconciliation
fallback. -/
def finalSignedTx (env : InvokeEnv) (method : String) : Except JsErr Tx :=
  match env.loadAccount with
  | .error e => .error e
  | .ok _ =>
    let simResponse := simResponseOf env
    match simError? simResponse with
    | some err => .error (.error (classifySimError method err))
    | none =>
      match env.prepareTransaction with
      | .error e => .error e
      | .ok _ =>
        if simResponse.result.isNone then
          .error (.error "Invalid simulation response: missing result")
        else
          match env.assemble with
          | .error e => .error (.error ("Failed to assemble transaction: " ++ jsErrMessage e))
          | .ok assembledTx =>
            match env.sign with
            | .error e => .error e
            | .ok signedTxResult =>
              match signedTxResult.error with
              | some serr => .error (.error ("Failed to sign transaction: " ++ serr))
              | none =>
                match signedTxResult.signedTxXdr with
                | none => .error (.error "Transaction was not signed")
                | some _ =>
                  match env.standardParse with
                  | .ok t => .ok t
                  | .error parseError =>
                    let errorMsg := jsErrMessage parseError
                    if includes errorMsg "Bad union switch" || includes errorMsg "switch: 4" then
                      reconcileFallback assembledTx env.envelopeParse
                    else
                      .error (.error ("Failed to parse signed transaction: " ++ errorMsg))

/-- The instrumented outcome of one invokeContract run: the returned or
thrown value, and the transaction passed to sendTransaction when the
pipeline reached submission. -/
structure InvokeOutcome where
  result : Except JsErr ScVal
  submitted : Option Tx
deriving Repr

/-- invokeContractBody is the body of the outer try of invokeContract:
submission and result extraction after the signing pipeline. -/
def invokeContractBody (env : InvokeEnv) (method : String) : InvokeOutcome :=
  match finalSignedTx env method with
  | .error e => InvokeOutcome.mk (.error e) none
  | .ok tx =>
    match env.send with
    | .error e => InvokeOutcome.mk (.error e) (some tx)
    | .ok sendResponse =>
      match sendResponse.errorResult with
      | some er =>
        InvokeOutcome.mk (.error (.error ("Transaction failed: " ++ errPayloadJson er))) (some tx)
      | none =>
        InvokeOutcome.mk
          (.ok (extractionResult env.decodeScVal ((simResponseOf env).result >>= SimResult.retval)))
          (some tx)

/-- catchWrap is the outer catch of invokeContract
(src/unnamed/part_001 lines 325-330): an Error instance is rethrown
unchanged and any non-Error thrown value is replaced by a fresh Error. -/
def catchWrap : Except JsErr ScVal → Except JsErr ScVal
  | .ok v => .ok v
  | .error (.error m) => .error (.error m)
  | .error (.raw _) => .error (.error "Failed to invoke contract method")

/-- invokeContractRun: the full invokeContract, with the outer catch
applied to the body and the submitted transaction kept for observation. -/
def invokeContractRun (env : InvokeEnv) (method : String) : InvokeOutcome :=
  let o := invokeContractBody env method
  InvokeOutcome.mk (catchWrap o.result) o.submitted

/-- The inputs of registerWarranty after date parsing: `purchaseTs` and
`expirationTs` are the results of
`Math.floor(new Date(d).getTime() / 1000)`, with `none` standing for the
NaN an unparseable date produces, and `nowTs` is the current Unix time. -/
structure RegisterInput where
  owner : String
  productName : String
  serialNumber : String
  manufacturer : String
  purchaseTs : Option Int
  expirationTs : Option Int
  nowTs : Int
  signerAddress : String
deriving DecidableEq, Repr

/-- nanLe a b is the JavaScript comparison `a <= b`, false whenever
either side is NaN. -/
def nanLe : Option Int → Option Int → Bool
  | some x, some y => x ≤ y
  | _, _ => false

/-- nanGt a b is the JavaScript comparison `a > b`, false whenever
either side is NaN. -/
def nanGt : Option Int → Option Int → Bool
  | some x, some y => x > y
  | _, _ => false

/-- The outcome of the fail-fast validation layer: a thrown message, or
control reaching the invokeContract call (and hence the network). -/
inductive ValidationOutcome where
  | failFast (msg : String)
  | proceed
deriving DecidableEq, Repr

/-- The owner address-format error message of registerWarranty. -/
def invalidAddressMsg : String :=
  "Invalid Stellar address format. Address must start with G and be 56 characters long."

/-- The authorization-mismatch error message of registerWarranty. -/
def authMismatchMsg : String :=
  "Owner address must match the signer address. The contract requires the owner to authorize the transaction."

/-- The date-ordering error message of registerWarranty. -/
def dateOrderMsg : String :=
  "Expiration date must be after purchase date."

/-- registerWarrantyValidate is the validation layer of registerWarranty
(src/frontend/src/utils/soroban.ts lines 643-681), in source order:
owner address format, signer address format, owner-equals-signer, date
ordering, and purchase-date-not-in-future.  All of it runs before the
invokeContract call, so `failFast` means no network call was issued. -/
def registerWarrantyValidate (inp : RegisterInput) : ValidationOutcome :=
  if (inp.owner == "") || !(jsStartsWith inp.owner "G") || (inp.owner.length != 56) then
    .failFast invalidAddressMsg
  else if (inp.signerAddress == "") || !(jsStartsWith inp.signerAddress "G") || (inp.signerAddress.length != 56) then
    .failFast "Invalid signer address"
  else if inp.owner != inp.signerAddress then
    .failFast authMismatchMsg
  else if nanLe inp.expirationTs inp.purchaseTs then
    .failFast dateOrderMsg
  else if nanGt inp.purchaseTs (some inp.nowTs) then
    .failFast "Purchase date cannot be in the future."
  else
    .proceed

/-- scValNativeString models `scValToNative(result).toString()` on the
ScVal constructors this client produces. -/
def scValNativeString : ScVal → String
  | .scvBool b => if b then "true" else "false"
  | .scvU32 n => toString n
  | .scvU64 n => toString n
  | .scvString s => s
  | .scvAddress s => s

/-- reclassifyRegisterErr is the catch of registerWarranty
(src/frontend/src/utils/soroban.ts lines 699-719): an Error mentioning
"address" is replaced, a "Bad union switch" Error is wrapped with
context, anything else is rethrown unchanged. -/
def reclassifyRegisterErr : JsErr → JsErr
  | .error m =>
    if includes m "address" then
      .error "Invalid Stellar address. Please connect a valid wallet."
    else if includes m "Bad union switch" then
      .error ("Transaction parsing error: " ++ m ++
        ". This might indicate an issue with the transaction envelope structure. " ++
        "Check the browser console for detailed logs.")
    else
      .error m
  | .raw s => .raw s

/-- The instrumented outcome of a registerWarranty call: the returned id
or thrown value, and whether the invokeContract pipeline (and so any
network call) was reached. -/
structure RegisterOutcome where
  result : Except JsErr String
  invoked : Bool
deriving Repr

/-- registerWarrantyRun: validation first, then the invokeContract
pipeline with the catch-block reclassification of errors. -/
def registerWarrantyRun (env : InvokeEnv) (inp : RegisterInput) : RegisterOutcome :=
  match registerWarrantyValidate inp with
  | .failFast msg => RegisterOutcome.mk (.error (.error msg)) false
  | .proceed =>
    match (invokeContractRun env "register_warranty").result with
    | .ok v => RegisterOutcome.mk (.ok (scValNativeString v)) true
    | .error e => RegisterOutcome.mk (.error (reclassifyRegisterErr e)) true

/-- The native warranty status after the status-mapping conditional. -/
inductive WarrantyStatus where
  | Active
  | Expired
  | Revoked
deriving DecidableEq, Repr

/-- The raw `status` field of a decoded warranty struct, before the
mapping conditional compares it against numbers and strings. -/
inductive StatusRaw where
  | num (n : Int)
  | str (s : String)
  | otherVal
deriving DecidableEq, Repr

/-- The scValToNative image of a warranty struct: each field is optional
because the source reads every field through a fallback chain.  Snake
and camel case variants are both probed by the source. -/
structure RawWarranty where
  owner : Option String
  product_name : Option String
  productName : Option String
  serial_number : Option String
  serialNumber : Option String
  manufacturer : Option String
  purchase_date : Option Int
  purchaseDate : Option Int
  expiration_date : Option Int
  expirationDate : Option Int
  status : Option StatusRaw
  created_at : Option Int
  createdAt : Option Int
deriving DecidableEq, Repr

/-- The WarrantyData record shape of src/frontend/src/types. -/
structure WarrantyData where
  id : String
  owner : String
  product_name : String
  serial_number : String
  manufacturer : String
  purchase_date : String
  expiration_date : String
  status : WarrantyStatus
  created_at : String
deriving DecidableEq, Repr

/-- truthyStr maps a JavaScript falsy string (empty or absent) to
`none`, for the source field fallback chains written with `||`. -/
def truthyStr : Option String → Option String
  | some "" => none
  | some s => some s
  | none => none

/-- firstTruthy a b is the JavaScript expression `a || b || ""` on
optional strings. -/
def firstTruthy (a b : Option String) : String :=
  match truthyStr a with
  | some s => s
  | none =>
    match truthyStr b with
    | some s => s
    | none => ""

/-- intField a b is `a?.toString() || b?.toString() || ""`; a numeric
toString is never the empty string, so it is always truthy. -/
def intField (a b : Option Int) : String :=
  firstTruthy (a.map toString) (b.map toString)

/-- statusOf is the status-mapping conditional of getWarranty
(src/frontend/src/utils/soroban.ts lines 797-806): 0, "0" or "Active"
map to Active; 1, "1" or "Expired" map to Expired; everything else,
including an absent status, falls through to Revoked. -/
def statusOf : Option StatusRaw → WarrantyStatus
  | some (.num 0) => .Active
  | some (.str "0") => .Active
  | some (.str "Active") => .Active
  | some (.num 1) => .Expired
  | some (.str "1") => .Expired
  | some (.str "Expired") => .Expired
  | _ => .Revoked

/-- mkWarrantyData is the struct-to-WarrantyData mapping of getWarranty
(src/frontend/src/utils/soroban.ts lines 781-811).  The owner field
reads `warrantyData.owner || warrantyData.owner?.toString() || ""`,
probing the same field twice exactly as the source does. -/
def mkWarrantyData (id : String) (w : RawWarranty) : WarrantyData :=
  WarrantyData.mk id
    (firstTruthy w.owner w.owner)
    (firstTruthy w.product_name w.productName)
    (firstTruthy w.serial_number w.serialNumber)
    (firstTruthy w.manufacturer none)
    (intField w.purchase_date w.purchaseDate)
    (intField w.expiration_date w.expirationDate)
    (statusOf w.status)
    (intField w.created_at w.createdAt)

/-- The scValToNative image of a read-only simulation return value: a
warranty-struct object, an array of stringified ids, another primitive,
or a conversion that throws (`convFail`). -/
inductive QNative where
  | recd (w : RawWarranty)
  | arr (ids : List String)
  | prim
  | convFail
deriving DecidableEq, Repr

/-- The `result.retval` of a read-only simulation: an xdr.ScVal
instance, a plain object, or a value of any other typeof. -/
inductive QueryRetval where
  | scval (n : QNative)
  | obj (n : QNative)
  | otherVal
deriving DecidableEq, Repr

/-- The truthy `result` member of a read-only simulation response. -/
structure QSimResult where
  retval : Option QueryRetval
deriving DecidableEq, Repr

/-- A read-only simulateTransaction response. -/
structure QSimResponse where
  error : Option ErrPayload
  errorResult : Option ErrPayload
  result : Option QSimResult
deriving DecidableEq, Repr

/-- The environment of one getWarranty call: the outcome of its single
simulateTransaction round trip. -/
structure QueryEnv where
  simulate : Except JsErr QSimResponse

/-- warrantyFromNative: the tail of getWarranty after scValToNative.  A
throwing conversion is caught by the surrounding try (null); a
non-object native returns null; an object builds the WarrantyData
record (an array is an object in JavaScript, with every probed field
absent). -/
def warrantyFromNative (id : String) : QNative → Option WarrantyData
  | .convFail => none
  | .prim => none
  | .recd w => some (mkWarrantyData id w)
  | .arr _ =>
    some (mkWarrantyData id
      (RawWarranty.mk none none none none none none none none none none none none none))

/-- getWarranty embeds src/frontend/src/utils/soroban.ts lines 722-822:
an invalid id (Uint64.fromString throws, caught by the try) yields null,
as do a simulation error, a missing result or retval, an unexpected
retval type, and a non-object native value; a decoded struct is mapped
to WarrantyData.  Every branch returns, so the function never throws. -/
def getWarranty (env : QueryEnv) (warrantyId : String) : Option WarrantyData :=
  match uint64FromString warrantyId with
  | none => none
  | some _ =>
    match env.simulate with
    | .error _ => none
    | .ok resp =>
      if resp.error.isSome || resp.errorResult.isSome then none
      else
        match resp.result with
        | none => none
        | some res =>
          match res.retval with
          | none => none
          | some rv =>
            match rv with
            | .scval n => warrantyFromNative warrantyId n
            | .obj n => warrantyFromNative warrantyId n
            | .otherVal => none

/-- The environment of one getWarrantiesByOwner call: the
Address.fromString parse (none models a throw), the by-owner simulation,
and the environment of each per-id getWarranty fetch. -/
structure OwnerQueryEnv where
  parseAddress : String → Option Unit
  simulate : Except JsErr QSimResponse
  perWarranty : String → QueryEnv

/-- collectFromNative: the tail of getWarrantiesByOwner after
scValToNative.  Only an array passes the Array.isArray guard; its ids
are fetched one by one and only successful fetches are kept. -/
def collectFromNative (env : OwnerQueryEnv) : QNative → List WarrantyData
  | .arr ids => ids.filterMap (fun id => getWarranty (env.perWarranty id) id)
  | _ => []

/-- getWarrantiesByOwner embeds src/frontend/src/utils/soroban.ts lines
824-918: a malformed owner address (thrown, caught by the try), a failed
address parse, a simulation error, a missing result or retval, an
unexpected retval type, and a non-array native all yield the empty
array; an array of ids yields exactly the warranties whose per-id fetch
succeeded.  Every branch returns, so the function never throws. -/
def getWarrantiesByOwner (env : OwnerQueryEnv) (owner : String) : List WarrantyData :=
  if (owner == "") || !(jsStartsWith owner "G") || (owner.length != 56) then []
  else
    match env.parseAddress owner with
    | none => []
    | some _ =>
      match env.simulate with
      | .error _ => []
      | .ok resp =>
        if resp.error.isSome || resp.errorResult.isSome then []
        else
          match resp.result with
          | none => []
          | some res =>
            match res.retval with
            | none => []
            | some rv =>
              match rv with
              | .scval n => collectFromNative env n
              | .obj n => collectFromNative env n
              | .otherVal => []

/-- encodeU64: the native-to-wire encoding
`xdr.ScVal.scvU64(xdr.Uint64.fromString(n.toString()))` used for
warranty ids and timestamps. -/
def encodeU64 (n : Nat) : Option ScVal :=
  (uint64FromString (toString n)).map ScVal.scvU64

/-- scvU64ToNative: the scValToNative decoding of a u64 wire value. -/
def scvU64ToNative : ScVal → Option Nat
  | .scvU64 n => some n
  | _ => none

/-- A result is classified when it is a returned value or a thrown Error
instance, never a raw non-Error thrown value. -/
def classifiedResult : Except JsErr ScVal → Bool
  | .error (.raw _) => false
  | _ => true

/-- The real dummy source account address used by the client for
read-only simulations, a syntactically valid 56-character G address. -/
def dummyAddr : String :=
  "GAAAAAAAAAAAAAAAAAAAAAAAAAAAAAAAAAAAAAAAAAAAAAAAAAAAAWHF"

/-- An environment in which every external call succeeds and the signed
envelope parses on the standard path; used to exercise code paths whose
outcome does not depend on the network. -/
def envIdle : InvokeEnv :=
  InvokeEnv.mk (.ok ()) (.ok (SimResponse.mk none none (some (SimResult.mk none))))
    (.ok ()) (.ok (Tx.mk "idlePayload" [])) (.ok (SignResult.mk none (some "idleXdr")))
    (.ok (Tx.mk "idlePayload" ["idleSig"])) (.ok Envelope.other)
    (.ok (SendResponse.mk none)) (fun _ => none)

/-- An environment where the signer returns an envelope of the
recognized fallback shape (the standard parse fails with the Bad union
switch: 4 marker) whose v1 signature list is empty, and every other
external call succeeds. -/
def envC1 : InvokeEnv :=
  InvokeEnv.mk (.ok ()) (.ok (SimResponse.mk none none (some (SimResult.mk none))))
    (.ok ()) (.ok (Tx.mk "assembledPayload" [])) (.ok (SignResult.mk none (some "signedXdr")))
    (.error (.error "XDR Read Error: Bad union switch: 4")) (.ok (Envelope.v1 []))
    (.ok (SendResponse.mk none)) (fun _ => none)

/-- An environment whose pipeline reaches submission on the standard
parse path and whose simulation result carries no return payload. -/
def envC3 : InvokeEnv :=
  InvokeEnv.mk (.ok ()) (.ok (SimResponse.mk none none (some (SimResult.mk none))))
    (.ok ()) (.ok (Tx.mk "assembledPayload" [])) (.ok (SignResult.mk none (some "signedXdr")))
    (.ok (Tx.mk "parsedPayload" ["freighterSig"])) (.ok Envelope.other)
    (.ok (SendResponse.mk none)) (fun _ => none)

/-- An environment whose simulation fails with a string payload carrying
the UnreachableCodeReached contract-panic marker. -/
def envC4 : InvokeEnv :=
  InvokeEnv.mk (.ok ()) (.ok (SimResponse.mk (some (.str "Error(UnreachableCodeReached)")) none none))
    (.ok ()) (.ok (Tx.mk "assembledPayload" [])) (.ok (SignResult.mk none (some "signedXdr")))
    (.ok (Tx.mk "parsedPayload" ["freighterSig"])) (.ok Envelope.other)
    (.ok (SendResponse.mk none)) (fun _ => none)

/-- An environment whose simulation fails with the bare
UnreachableCodeReached panic marker as its payload. -/
def envC5 : InvokeEnv :=
  InvokeEnv.mk (.ok ()) (.ok (SimResponse.mk (some (.str "UnreachableCodeReached")) none none))
    (.ok ()) (.ok (Tx.mk "assembledPayload" [])) (.ok (SignResult.mk none (some "signedXdr")))
    (.ok (Tx.mk "parsedPayload" ["freighterSig"])) (.ok Envelope.other)
    (.ok (SendResponse.mk none)) (fun _ => none)

/-- A register-warranty input with a malformed owner address and an
expiration timestamp (2023-01-01) at or before its purchase timestamp
(2024-01-01). -/
def cexC6 : RegisterInput :=
  RegisterInput.mk "X" "Laptop" "SN-1" "Acme" (some 1704067200) (some 1672531200)
    1760227200 dummyAddr

/-- A register-warranty input whose owner and signer addresses are
trivially ordered after 2023 purchase and 2024 expiration dates, with a
well-formed owner equal to the signer. -/
def wtnC6 : RegisterInput :=
  RegisterInput.mk dummyAddr "Laptop" "SN-1" "Acme" (some 1704067200) (some 1672531200)
    1760227200 dummyAddr

/-- A register-warranty input whose empty owner address differs from its
well-formed signer address. -/
def cexC7 : RegisterInput :=
  RegisterInput.mk "" "Phone" "SN-2" "Acme" (some 1672531200) (some 1704067200)
    1760227200 dummyAddr

/-- A second syntactically well-formed 56-character G address, distinct
from dummyAddr. -/
def otherAddr : String :=
  "GBBBBBBBBBBBBBBBBBBBBBBBBBBBBBBBBBBBBBBBBBBBBBBBBBBBBBBB"

/-- A register-warranty input whose well-formed owner address differs
from its well-formed signer address. -/
def wtnC7 : RegisterInput :=
  RegisterInput.mk dummyAddr "Phone" "SN-2" "Acme" (some 1672531200) (some 1704067200)
    1760227200 otherAddr

/-- A query environment whose single simulation reports a ledger-side
error payload. -/
def qEnvC8 : QueryEnv :=
  QueryEnv.mk (.ok (QSimResponse.mk (some (.str "HostError: missing entry")) none none))

/-- A by-owner query environment in which every external call would
succeed with an empty response. -/
def ownerEnvC10 : OwnerQueryEnv :=
  OwnerQueryEnv.mk (fun _ => some ()) (.ok (QSimResponse.mk none none none))
    (fun _ => QueryEnv.mk (.ok (QSimResponse.mk none none none)))

/-- C1 (amended): when the fallback reconciler extracts a signature from
the recognized envelope shape, the final transaction is the assembled
transaction with exactly that signature appended: its signature list
length is the prior length plus one and its operation/authorization
payload is unchanged. -/
theorem c1_reconcile_appends_signature (asm : Tx) (e : Envelope) (sig : String)
    (h : extractSignature e = some sig) :
    reconcileFallback asm (.ok e) = .ok (Tx.mk asm.payload (asm.signatures ++ [sig])) ∧
    (asm.signatures ++ [sig]).length = asm.signatures.length + 1 := by
  constructor
  · simp [reconcileFallback, h]
  · simp

/-- C1 witness: the reconciler applied to a concrete assembled
transaction and a concrete v1 envelope carrying a signature. -/
theorem c1_reconcile_witness :
    extractSignature (Envelope.v1 ["sigA", "sigB"]) = some "sigA" ∧
    (reconcileFallback (Tx.mk "authPayload" ["s0"]) (.ok (Envelope.v1 ["sigA", "sigB"])) =
      .ok (Tx.mk "authPayload" (["s0"] ++ ["sigA"])) ∧
    (["s0"] ++ ["sigA"]).length = ["s0"].length + 1) :=
  ⟨rfl, c1_reconcile_appends_signature (Tx.mk "authPayload" ["s0"])
    (Envelope.v1 ["sigA", "sigB"]) "sigA" rfl⟩

/-- C1 (counterexample): with no extractable signature in the recognized
fallback envelope shape, the invocation does not abort: it completes
successfully and the transaction handed to sendTransaction still has an
empty signature list, so the absence of a signature is a silent no-op,
contrary to the claim. -/
theorem c1_missing_signature_cex :
    (invokeContractRun envC1 "transfer_ownership").result = .ok (ScVal.scvBool true) ∧
    (invokeContractRun envC1 "transfer_ownership").submitted =
      some (Tx.mk "assembledPayload" []) := by
  constructor <;> rfl

/-- C2: invokeContract either returns an ScVal or throws an Error
instance carrying a message; a raw non-Error exception never propagates
to its caller, whatever the environment does. -/
theorem c2_invoke_error_classified (env : InvokeEnv) (method : String) :
    classifiedResult (invokeContractRun env method).result = true := by
  have hres : (invokeContractRun env method).result =
      catchWrap (invokeContractBody env method).result := rfl
  rw [hres]
  cases (invokeContractBody env method).result with
  | ok v => rfl
  | error e => cases e <;> rfl

/-- C3: once the pipeline has produced a final signed transaction and
submission has succeeded, a missing simulation return payload or a
return value that fails to decode never fails the invocation: the result
is the scvBool(true) success sentinel. -/
theorem c3_post_submit_sentinel (env : InvokeEnv) (method : String) (tx : Tx)
    (hfin : finalSignedTx env method = .ok tx)
    (hsend : env.send = .ok (SendResponse.mk none))
    (hext : ((simResponseOf env).result >>= SimResult.retval) = none ∨
            ∃ rv, ((simResponseOf env).result >>= SimResult.retval) = some rv ∧
                  extractFromRetval env.decodeScVal rv = none) :
    (invokeContractRun env method).result = .ok (ScVal.scvBool true) := by
  have hbody : invokeContractBody env method =
      InvokeOutcome.mk
        (.ok (extractionResult env.decodeScVal ((simResponseOf env).result >>= SimResult.retval)))
        (some tx) := by
    simp [invokeContractBody, hfin, hsend]
  have hres : (invokeContractRun env method).result =
      catchWrap (invokeContractBody env method).result := rfl
  rw [hres, hbody]
  rcases hext with h | ⟨rv, h, hfail⟩
  · simp [catchWrap, extractionResult, h]
  · simp [catchWrap, extractionResult, h, hfail]

/-- C3 witness: a concrete run that reaches submission with no
simulation return payload yields the success sentinel. -/
theorem c3_post_submit_witness :
    (invokeContractRun envC3 "register_warranty").result = .ok (ScVal.scvBool true) :=
  c3_post_submit_sentinel envC3 "register_warranty" (Tx.mk "parsedPayload" ["freighterSig"])
    rfl rfl (Or.inl rfl)

/-- C4: a simulation failure for update_status whose payload carries the
UnreachableCodeReached marker aborts the invocation before submission
with the encoding-limitation message, which directs the caller to the
narrower status-specific operation. -/
theorem c4_update_status_encoding_limitation (env : InvokeEnv) (resp : SimResponse)
    (e : ErrPayload)
    (h1 : env.loadAccount = .ok ())
    (h2 : env.simulateTransaction = .ok resp)
    (h3 : resp.error = some e)
    (h4 : includes (errPayloadStr e) "UnreachableCodeReached" = true) :
    (invokeContractRun env "update_status").result = .error (.error updateStatusEncodingMsg) ∧
    includes updateStatusEncodingMsg "Please use the \"Revoke Warranty\" button" = true ∧
    (invokeContractRun env "update_status").submitted = none := by
  have hsim : simResponseOf env = resp := by simp [simResponseOf, h2]
  have herr : simError? resp = some e := by simp [simError?, h3]
  have hclass : classifySimError "update_status" e = updateStatusEncodingMsg := by
    simp [classifySimError, h4]
  have hfin : finalSignedTx env "update_status" = .error (.error updateStatusEncodingMsg) := by
    simp [finalSignedTx, h1, hsim, herr, hclass]
  refine ⟨?_, by decide, ?_⟩
  · have hres : (invokeContractRun env "update_status").result =
        catchWrap (invokeContractBody env "update_status").result := rfl
    rw [hres]
    simp [invokeContractBody, hfin, catchWrap]
  · have hsub : (invokeContractRun env "update_status").submitted =
        (invokeContractBody env "update_status").submitted := rfl
    rw [hsub]
    simp [invokeContractBody, hfin]

/-- C4 witness: a concrete update_status simulation failure carrying the
marker is classified as the encoding limitation. -/
theorem c4_update_status_witness :
    (invokeContractRun envC4 "update_status").result = .error (.error updateStatusEncodingMsg) ∧
    includes updateStatusEncodingMsg "Please use the \"Revoke Warranty\" button" = true ∧
    (invokeContractRun envC4 "update_status").submitted = none :=
  c4_update_status_encoding_limitation envC4
    (SimResponse.mk (some (.str "Error(UnreachableCodeReached)")) none none)
    (.str "Error(UnreachableCodeReached)") rfl rfl rfl (by decide)

/-- C5 (counterexample): a transfer_ownership simulation failure whose
payload carries the contract-panic marker is reported with the generic
panic message: it contains neither a not-found nor an owner mention, so
the claimed method-specific relabeling does not happen for
transfer_ownership. -/
theorem c5_transfer_generic_cex :
    (invokeContractRun envC5 "transfer_ownership").result =
      .error (.error ("Contract execution failed: UnreachableCodeReached" ++ panicSuffix)) ∧
    includes ("Contract execution failed: UnreachableCodeReached" ++ panicSuffix)
      "not found" = false ∧
    includes ("Contract execution failed: UnreachableCodeReached" ++ panicSuffix)
      "owner" = false := by
  refine ⟨rfl, by decide, by decide⟩

/-- C5 (amended): on a contract-panic simulation failure, only
revoke_warranty has the generic panic text replaced by the not-found /
not-owner guidance; transfer_ownership receives the generic
contract-panic message. -/
theorem c5_panic_refinement (env : InvokeEnv) (resp : SimResponse) (e : ErrPayload)
    (h1 : env.loadAccount = .ok ())
    (h2 : env.simulateTransaction = .ok resp)
    (h3 : resp.error = some e)
    (h4 : includes (errPayloadStr e) "UnreachableCodeReached" = true) :
    (invokeContractRun env "revoke_warranty").result = .error (.error revokeGuidanceMsg) ∧
    includes revokeGuidanceMsg "not found" = true ∧
    includes revokeGuidanceMsg "not be the owner" = true ∧
    (invokeContractRun env "transfer_ownership").result =
      .error (.error ("Contract execution failed: " ++ errPayloadTemplate e ++ panicSuffix)) := by
  have hsim : simResponseOf env = resp := by simp [simResponseOf, h2]
  have herr : simError? resp = some e := by simp [simError?, h3]
  have hclassR : classifySimError "revoke_warranty" e = revokeGuidanceMsg := by
    simp [classifySimError, h4]
  have hclassT : classifySimError "transfer_ownership" e =
      "Contract execution failed: " ++ errPayloadTemplate e ++ panicSuffix := by
    simp [classifySimError, h4]
  have hfinR : finalSignedTx env "revoke_warranty" = .error (.error revokeGuidanceMsg) := by
    simp [finalSignedTx, h1, hsim, herr, hclassR]
  have hfinT : finalSignedTx env "transfer_ownership" =
      .error (.error ("Contract execution failed: " ++ errPayloadTemplate e ++ panicSuffix)) := by
    simp [finalSignedTx, h1, hsim, herr, hclassT]
  refine ⟨?_, by decide, by decide, ?_⟩
  · have hres : (invokeContractRun env "revoke_warranty").result =
        catchWrap (invokeContractBody env "revoke_warranty").result := rfl
    rw [hres]
    simp [invokeContractBody, hfinR, catchWrap]
  · have hres : (invokeContractRun env "transfer_ownership").result =
        catchWrap (invokeContractBody env "transfer_ownership").result := rfl
    rw [hres]
    simp [invokeContractBody, hfinT, catchWrap]

/-- C5 witness: a concrete panic payload exercising both the
revoke_warranty refinement and the transfer_ownership generic message. -/
theorem c5_panic_refinement_witness :
    (invokeContractRun envC5 "revoke_warranty").result = .error (.error revokeGuidanceMsg) ∧
    includes revokeGuidanceMsg "not found" = true ∧
    includes revokeGuidanceMsg "not be the owner" = true ∧
    (invokeContractRun envC5 "transfer_ownership").result =
      .error (.error ("Contract execution failed: " ++
        errPayloadTemplate (.str "UnreachableCodeReached") ++ panicSuffix)) :=
  c5_panic_refinement envC5 (SimResponse.mk (some (.str "UnreachableCodeReached")) none none)
    (.str "UnreachableCodeReached") rfl rfl rfl (by decide)

/-- C6 (counterexample): a call whose expiration timestamp precedes its
purchase timestamp but whose owner address is malformed throws the
address-format error, not the date-ordering error, so the claim as
universally stated fails. -/
theorem c6_date_order_cex :
    nanLe cexC6.expirationTs cexC6.purchaseTs = true ∧
    (registerWarrantyRun envIdle cexC6).result = .error (.error invalidAddressMsg) ∧
    invalidAddressMsg ≠ dateOrderMsg := by
  refine ⟨by decide, rfl, by decide⟩

/-- C6 (amended): a registerWarranty call with well-formed owner and
signer addresses, owner equal to signer, and an expiration timestamp at
or before its purchase timestamp throws the date-ordering error without
ever reaching the invokeContract pipeline, whatever the network would
answer. -/
theorem c6_date_order_fail_fast (env : InvokeEnv) (inp : RegisterInput)
    (hOwner : ((inp.owner == "") || !(jsStartsWith inp.owner "G") ||
      (inp.owner.length != 56)) = false)
    (hSigner : ((inp.signerAddress == "") || !(jsStartsWith inp.signerAddress "G") ||
      (inp.signerAddress.length != 56)) = false)
    (hMatch : (inp.owner != inp.signerAddress) = false)
    (hDate : nanLe inp.expirationTs inp.purchaseTs = true) :
    (registerWarrantyRun env inp).result = .error (.error dateOrderMsg) ∧
    (registerWarrantyRun env inp).invoked = false := by
  have hval : registerWarrantyValidate inp = .failFast dateOrderMsg := by
    simp [registerWarrantyValidate, hOwner, hSigner, hMatch, hDate]
  constructor <;> simp [registerWarrantyRun, hval]

/-- C6 witness: the spec scenario with purchase date 2024-01-01 and
expiration 2023-01-01 on a well-formed owner-equals-signer input. -/
theorem c6_date_order_witness :
    (registerWarrantyRun envIdle wtnC6).result = .error (.error dateOrderMsg) ∧
    (registerWarrantyRun envIdle wtnC6).invoked = false :=
  c6_date_order_fail_fast envIdle wtnC6 (by decide) (by decide) (by decide) (by decide)

/-- C7 (counterexample): a call whose owner differs from its signer but
whose owner address is malformed (empty) throws the address-format
error, not the authorization-mismatch error, so the claim as universally
stated fails. -/
theorem c7_auth_mismatch_cex :
    cexC7.owner ≠ cexC7.signerAddress ∧
    (registerWarrantyRun envIdle cexC7).result = .error (.error invalidAddressMsg) ∧
    invalidAddressMsg ≠ authMismatchMsg := by
  refine ⟨by decide, rfl, by decide⟩

/-- C7 (amended): a registerWarranty call with well-formed owner and
signer addresses that differ throws the authorization-mismatch error
without ever reaching the invokeContract pipeline, whatever the network
would answer. -/
theorem c7_auth_mismatch_fail_fast (env : InvokeEnv) (inp : RegisterInput)
    (hOwner : ((inp.owner == "") || !(jsStartsWith inp.owner "G") ||
      (inp.owner.length != 56)) = false)
    (hSigner : ((inp.signerAddress == "") || !(jsStartsWith inp.signerAddress "G") ||
      (inp.signerAddress.length != 56)) = false)
    (hDiff : (inp.owner != inp.signerAddress) = true) :
    (registerWarrantyRun env inp).result = .error (.error authMismatchMsg) ∧
    (registerWarrantyRun env inp).invoked = false := by
  have hval : registerWarrantyValidate inp = .failFast authMismatchMsg := by
    simp [registerWarrantyValidate, hOwner, hSigner, hDiff]
  constructor <;> simp [registerWarrantyRun, hval]

/-- C7 witness: two distinct well-formed addresses trigger the
authorization-mismatch error with no network call. -/
theorem c7_auth_mismatch_witness :
    (registerWarrantyRun envIdle wtnC7).result = .error (.error authMismatchMsg) ∧
    (registerWarrantyRun envIdle wtnC7).invoked = false :=
  c7_auth_mismatch_fail_fast envIdle wtnC7 (by decide) (by decide) (by decide)

/-- C8: whenever the ledger reports an error for a warranty query or the
simulation carries no result, getWarranty returns null instead of
throwing (the embedding is a total function into Option, so no branch
can throw). -/
theorem c8_get_warranty_absent_null (env : QueryEnv) (warrantyId : String)
    (h : (∃ e, env.simulate = .error e) ∨
         ∃ resp, env.simulate = .ok resp ∧
           (resp.error.isSome = true ∨ resp.errorResult.isSome = true ∨
            resp.result = none ∨
            ∃ res, resp.result = some res ∧ res.retval = none)) :
    getWarranty env warrantyId = none := by
  cases hid : uint64FromString warrantyId with
  | none => simp [getWarranty, hid]
  | some n =>
    rcases h with ⟨e, he⟩ | ⟨resp, hresp, hcase⟩
    · simp [getWarranty, hid, he]
    · rcases hcase with h1 | h1 | h1 | ⟨res, hres, hrv⟩
      · simp [getWarranty, hid, hresp, h1]
      · simp [getWarranty, hid, hresp, h1]
      · cases hc : (resp.error.isSome || resp.errorResult.isSome) <;>
          simp [getWarranty, hid, hresp, h1, hc]
      · cases hc : (resp.error.isSome || resp.errorResult.isSome) <;>
          simp [getWarranty, hid, hresp, hres, hrv, hc]

/-- C8 witness: a concrete id whose simulation reports a host error
yields null. -/
theorem c8_get_warranty_witness : getWarranty qEnvC8 "42" = none :=
  c8_get_warranty_absent_null qEnvC8 "42"
    (Or.inr ⟨QSimResponse.mk (some (.str "HostError: missing entry")) none none, rfl,
      Or.inl rfl⟩)

/-- C9: encoding a native 64-bit id to its wire form and decoding it
back yields the original id, for each of the ids 0, 1, 2^32-1 and
2^63-1. -/
theorem c9_u64_round_trip :
    Option.bind (encodeU64 0) scvU64ToNative = some 0 ∧
    Option.bind (encodeU64 1) scvU64ToNative = some 1 ∧
    Option.bind (encodeU64 4294967295) scvU64ToNative = some 4294967295 ∧
    Option.bind (encodeU64 9223372036854775807) scvU64ToNative =
      some 9223372036854775807 := by
  refine ⟨by decide, by decide, by decide, by decide⟩

/-- C10: getWarrantiesByOwner is total and never partial: a malformed
owner address, a failed address parse, a ledger-side simulation error, a
missing result, and an unexpected result type each yield the empty
array, and a successful array response yields exactly the warranties
whose per-id fetch succeeded. -/
theorem c10_by_owner_total (env : OwnerQueryEnv) (owner : String) :
    (((owner == "") || !(jsStartsWith owner "G") || (owner.length != 56)) = true →
      getWarrantiesByOwner env owner = []) ∧
    (env.parseAddress owner = none → getWarrantiesByOwner env owner = []) ∧
    (∀ e, env.simulate = .error e → getWarrantiesByOwner env owner = []) ∧
    (∀ resp, env.simulate = .ok resp →
      (resp.error.isSome = true ∨ resp.errorResult.isSome = true ∨ resp.result = none ∨
       (∃ res, resp.result = some res ∧
         (res.retval = none ∨ res.retval = some .otherVal))) →
      getWarrantiesByOwner env owner = []) ∧
    (∀ resp res ids,
      (((owner == "") || !(jsStartsWith owner "G") || (owner.length != 56)) = false) →
      (∃ u, env.parseAddress owner = some u) →
      env.simulate = .ok resp → resp.error = none → resp.errorResult = none →
      resp.result = some res → res.retval = some (.scval (.arr ids)) →
      getWarrantiesByOwner env owner =
        ids.filterMap (fun id => getWarranty (env.perWarranty id) id)) := by
  refine ⟨?_, ?_, ?_, ?_, ?_⟩
  · intro hg
    simp [getWarrantiesByOwner, hg]
  · intro hp
    cases hg : ((owner == "") || !(jsStartsWith owner "G") || (owner.length != 56)) with
    | true => simp [getWarrantiesByOwner, hg]
    | false => simp [getWarrantiesByOwner, hg, hp]
  · intro e he
    cases hg : ((owner == "") || !(jsStartsWith owner "G") || (owner.length != 56)) with
    | true => simp [getWarrantiesByOwner, hg]
    | false =>
      cases hp : env.parseAddress owner with
      | none => simp [getWarrantiesByOwner, hg, hp]
      | some u => simp [getWarrantiesByOwner, hg, hp, he]
  · intro resp hresp hcase
    cases hg : ((owner == "") || !(jsStartsWith owner "G") || (owner.length != 56)) with
    | true => simp [getWarrantiesByOwner, hg]
    | false =>
      cases hp : env.parseAddress owner with
      | none => simp [getWarrantiesByOwner, hg, hp]
      | some u =>
        rcases hcase with h1 | h1 | h1 | ⟨res, hres, hrv⟩
        · simp [getWarrantiesByOwner, hg, hp, hresp, h1]
        · simp [getWarrantiesByOwner, hg, hp, hresp, h1]
        · cases hc : (resp.error.isSome || resp.errorResult.isSome) <;>
            simp [getWarrantiesByOwner, hg, hp, hresp, h1, hc]
        · rcases hrv with hrv | hrv <;>
            cases hc : (resp.error.isSome || resp.errorResult.isSome) <;>
            simp [getWarrantiesByOwner, hg, hp, hresp, hres, hrv, hc]
  · intro resp res ids hg hp hresp he1 he2 hres hrv
    obtain ⟨u, hp⟩ := hp
    simp [getWarrantiesByOwner, hg, hp, hresp, he1, he2, hres, hrv, collectFromNative]

/-- C10 witness: a malformed owner address yields the empty array. -/
theorem c10_by_owner_witness : getWarrantiesByOwner ownerEnvC10 "bad-address" = [] :=
  (c10_by_owner_total ownerEnvC10 "bad-address").1 (by decide)

end WarrantyTracker
